import Mathlib

/-
Verification of the pod filter-predicate compiler
(pkg/domain/filters/pods.go, GeneratePodFilterFunc).

The entity model (libpod.Pod), the regex engine, the match-any-regex,
label and until-timestamp helpers, and the network registry are external
collaborators; they are embedded as abstract data (an Env record of
functions, Option/Except for fallible accessors). The body of
GeneratePodFilterFunc itself is translated branch by branch.
-/

namespace PodFilters

/-- A hexadecimal digit, as accepted by the hex-identifier classifier. -/
def isHexChar (c : Char) : Bool :=
  c.isDigit || ('a' ≤ c && c ≤ 'f') || ('A' ≤ c && c ≤ 'F')

/-- Modelled from the spec: the non-hex detector (define.NotHexRegex, a
libpod definition not under src/) matches exactly the strings containing
at least one character that is not a hexadecimal digit; the empty string
and pure-hex strings are not matched. -/
def notHexMatch (s : String) : Bool :=
  s.data.any (fun c => !(isHexChar c))

/-- ASCII lowercasing of one character, the case folding relevant to the
identifiers and vocabularies this code compares. -/
def charLower (c : Char) : Char :=
  if 'A' ≤ c && c ≤ 'Z' then Char.ofNat (c.toNat + 32) else c

/-- Go strings.ToLower at the ASCII boundary this code uses. -/
def strToLower (s : String) : String :=
  String.mk (s.data.map charLower)

/-- Go strings.HasPrefix: the first string is a prefix of the second. -/
def strStarts (p s : String) : Bool :=
  List.isPrefixOf p.data s.data

/-- Modelled from the spec: the raw child-container state vocabulary of
the external entity model (libpod define, not under src/). -/
inductive ContainerState where
  | unknown
  | configured
  | created
  | running
  | stopped
  | paused
  | exited
  | removing
  | stopping
deriving DecidableEq

/-- Modelled from the spec: the string rendering of a raw container
state (ContainerStatus.String in libpod define, not under src/). -/
def ContainerState.str : ContainerState → String
  | .unknown => "unknown"
  | .configured => "configured"
  | .created => "created"
  | .running => "running"
  | .stopped => "stopped"
  | .paused => "paused"
  | .exited => "exited"
  | .removing => "removing"
  | .stopping => "stopping"

/-- A child-container handle as seen through the entity-model contract:
a display name and a fallible list of attached network names. -/
structure Ctr where
  name : String
  networks : Option (List String)

/-- A Pod as seen through the entity-model contract consumed by the
compiler. Fallible accessors are Option values: none models the accessor
reporting an error. -/
structure Pod where
  id : String
  name : String
  createdTime : Int
  labels : List (String × String)
  allContainersByID : Option (List String)
  allContainers : Option (List Ctr)
  status : Option (List ContainerState)
  getPodStatus : Option String
  infraContainer : Option Ctr

/-- Result of a network-registry lookup failure: the registry
distinguishes a missing network (define.ErrNoSuchNetwork) from every
other failure. -/
inductive NetErr where
  | noSuchNetwork
  | other (msg : String)
deriving DecidableEq

/-- A registry network record; only its canonical name is consumed. -/
structure Network where
  name : String

/-- External collaborators consumed opaquely by the compiler: the regex
engine (recompile returns none when compilation fails, otherwise the
search-anywhere matcher), util.StringMatchRegexSlice,
filters.MatchLabelFilters, util.ComputeUntilTimestamp, and the network
registry (Runtime.Network().NetworkInspect). -/
structure Env where
  recompile : String → Option (String → Bool)
  stringMatchRegexSlice : String → List String → Bool
  matchLabelFilters : List String → List (String × String) → Bool
  computeUntilTimestamp : List String → Option Int
  networkInspect : String → Except NetErr Network

/-- Compile-time errors of GeneratePodFilterFunc, tagged by provenance. -/
inductive CompileErr where
  | invalidFilter (family : String)
  | invalidStatus (value : String)
  | invalidPodStatus (value : String)
  | networkErr (msg : String)
deriving DecidableEq

/-- The error message carried by each compile-time error, rendering the
exact format strings of pods.go (lines 82, 130, 169, 192). -/
def CompileErr.msg : CompileErr → String
  | .invalidFilter f => f ++ " is an invalid filter"
  | .invalidStatus v => v ++ " is not a valid status"
  | .invalidPodStatus v => v ++ " is not a valid pod status"
  | .networkErr m => m

/-- Value of a non-empty all-digit character sequence; none otherwise. -/
def digitsToNat (cs : List Char) : Option Nat :=
  if cs.isEmpty then none
  else if cs.all Char.isDigit then
    some (cs.foldl (fun acc c => acc * 10 + (c.toNat - 48)) 0)
  else none

/-- Largest value of Go's 64-bit int, the type strconv.Atoi parses
into. -/
def int64Max : Int := 9223372036854775807

/-- Smallest value of Go's 64-bit int. -/
def int64Min : Int := -9223372036854775808

/-- Keep a parsed value only when it fits Go's 64-bit int; outside that
range strconv's ParseInt reports ErrRange and Atoi fails. -/
def fitsInt64 (k : Int) : Option Int :=
  if k < int64Min then none
  else if int64Max < k then none
  else some k

/-- Modelled from Go strconv.Atoi at the boundary the compiler uses: an
optional sign followed by decimal digits, failing when the numeral
overflows the 64-bit int range (ErrRange); anything else fails too. -/
def atoi (s : String) : Option Int :=
  match s.data with
  | [] => none
  | '-' :: rest => (digitsToNat rest).bind (fun n => fitsInt64 (-(n : Int)))
  | '+' :: rest => (digitsToNat rest).bind (fun n => fitsInt64 ((n : Int)))
  | cs => (digitsToNat cs).bind (fun n => fitsInt64 ((n : Int)))

/-- The ctr-ids value loop (pods.go lines 29 to 48). A non-hex value is
compiled as a regex; a compilation failure returns false for the whole
predicate at once; otherwise the value matches if its matcher accepts
some child id (regex branch) or if some child id starts with the
lowercased value (hex branch). -/
def ctrIdsLoop (E : Env) (ctrIds : List String) : List String → Bool
  | [] => false
  | want :: rest =>
    if notHexMatch want then
      match E.recompile want with
      | none => false
      | some re =>
        if ctrIds.any (fun cid => re cid) then true
        else ctrIdsLoop E ctrIds rest
    else
      if ctrIds.any (fun cid => strStarts (strToLower want) cid) then true
      else ctrIdsLoop E ctrIds rest

/-- The ctr-number value loop (pods.go lines 68 to 77). A value that
fails to parse returns false for the whole predicate at once; otherwise
the value matches when the child count equals the parsed integer. -/
def ctrNumberLoop (n : Nat) : List String → Bool
  | [] => false
  | v :: rest =>
    match atoi v with
    | none => false
    | some k => if (n : Int) = k then true else ctrNumberLoop n rest

/-- Normalization of a raw child state performed inside the ctr-status
predicate (pods.go lines 91 to 96): configured reads as created and raw
stopped reads as exited; every other state keeps its string form. -/
def normState (st : ContainerState) : String :=
  match st with
  | .configured => "created"
  | .stopped => "exited"
  | s => s.str

/-- The ctr-status evaluation loops (pods.go lines 90 to 105): any
normalized child state equal to any query value, where the query value
stopped is aliased to exited just before the comparison. -/
def ctrStatusLoop (vals : List String) (sts : List ContainerState) : Bool :=
  sts.any (fun st =>
    vals.any (fun v => normState st == (if v == "stopped" then "exited" else v)))

/-- Matching of one id-family value against the Pod identifier
(pods.go lines 110 to 120): non-hex values are matched as regexes (a
compilation failure contributes no match), hex values as lowercased
prefixes of the identifier. -/
def idValueMatch (E : Env) (pid : String) (want : String) : Bool :=
  if notHexMatch want then
    match E.recompile want with
    | none => false
    | some re => re pid
  else strStarts (strToLower want) pid

/-- First value outside the allowed vocabulary, mirroring the eager
validation loops of pods.go lines 80 to 83 and 128 to 131. -/
def findInvalid (valid : List String) : List String → Option String
  | [] => none
  | v :: rest => if valid.contains v then findInvalid valid rest else some v

/-- Allowed ctr-status vocabulary (pods.go line 81). -/
def ctrStatusVocab : List String :=
  ["created", "running", "paused", "stopped", "exited", "unknown"]

/-- Allowed pod-level status vocabulary (pods.go line 129). -/
def podStatusVocab : List String :=
  ["stopped", "running", "paused", "exited", "dead", "created", "degraded"]

/-- Compile-time network name resolution (pods.go lines 162 to 172): a
value whose lookup reports no-such-network is skipped, any other
registry error aborts compilation, and the canonical names of resolved
values are collected in order. -/
def resolveNetworks (E : Env) : List String → Except CompileErr (List String)
  | [] => .ok []
  | v :: rest =>
    match E.networkInspect v with
    | .error .noSuchNetwork => resolveNetworks E rest
    | .error (.other m) => .error (.networkErr m)
    | .ok net => (resolveNetworks E rest).map (fun ns => net.name :: ns)

/-- The network predicate body (pods.go lines 173 to 190): no infra
container, failed or empty network enumeration give false; otherwise
true when some attached network is among the captured canonical names. -/
def networkPredEval (inputNetNames : List String) (p : Pod) : Bool :=
  match p.infraContainer with
  | none => false
  | some infra =>
    match infra.networks with
    | none => false
    | some networks =>
      if networks.isEmpty then false
      else networks.any (fun net => inputNetNames.contains net)

/-- Shallow embedding of GeneratePodFilterFunc (pods.go lines 20 to
193): dispatch on the filter family, eager validation or resolution
where the source performs it, and the returned predicate closure.
The Go switch is a sequence of equality tests on the family name. -/
def generatePodFilterFunc (E : Env) (filter : String) (filterValues : List String) :
    Except CompileErr (Pod → Bool) :=
  if filter = "ctr-ids" then
    .ok (fun p =>
      match p.allContainersByID with
      | none => false
      | some ctrIds => ctrIdsLoop E ctrIds filterValues)
  else if filter = "ctr-names" then
    .ok (fun p =>
      match p.allContainers with
      | none => false
      | some ctrs =>
        match ctrs with
        | [] => false
        | c :: _ => E.stringMatchRegexSlice c.name filterValues)
  else if filter = "ctr-number" then
    .ok (fun p =>
      match p.allContainersByID with
      | none => false
      | some ctrIds => ctrNumberLoop ctrIds.length filterValues)
  else if filter = "ctr-status" then
    match findInvalid ctrStatusVocab filterValues with
    | some v => .error (.invalidStatus v)
    | none =>
      .ok (fun p =>
        match p.status with
        | none => false
        | some sts => ctrStatusLoop filterValues sts)
  else if filter = "id" then
    .ok (fun p => filterValues.any (idValueMatch E p.id))
  else if filter = "name" then
    .ok (fun p => E.stringMatchRegexSlice p.name filterValues)
  else if filter = "status" then
    match findInvalid podStatusVocab filterValues with
    | some v => .error (.invalidPodStatus v)
    | none =>
      .ok (fun p =>
        match p.getPodStatus with
        | none => false
        | some st => filterValues.any (fun v => strToLower st == v))
  else if filter = "label" then
    .ok (fun p => E.matchLabelFilters filterValues p.labels)
  else if filter = "until" then
    .ok (fun p =>
      match E.computeUntilTimestamp filterValues with
      | none => false
      | some u => decide (p.createdTime < u))
  else if filter = "network" then
    match resolveNetworks E filterValues with
    | .error e => .error e
    | .ok inputNetNames => .ok (fun p => networkPredEval inputNetNames p)
  else
    .error (.invalidFilter filter)

/-- Compile the filter and, when compilation succeeds, evaluate the
returned predicate on one Pod. -/
def runPred (E : Env) (filter : String) (vals : List String) (p : Pod) : Option Bool :=
  match generatePodFilterFunc E filter vals with
  | .error _ => none
  | .ok pred => some (pred p)

/-- The closed vocabulary of family names recognized by the dispatch. -/
def recognizedFamilies : List String :=
  ["ctr-ids", "ctr-names", "ctr-number", "ctr-status", "id",
   "name", "status", "label", "until", "network"]

/-- Unfolding of the dispatch at the ctr-ids branch. -/
lemma gen_ctr_ids_eq (E : Env) (vals : List String) :
    generatePodFilterFunc E "ctr-ids" vals =
      .ok (fun p =>
        match p.allContainersByID with
        | none => false
        | some ctrIds => ctrIdsLoop E ctrIds vals) := rfl

/-- Unfolding of the dispatch at the ctr-names branch. -/
lemma gen_ctr_names_eq (E : Env) (vals : List String) :
    generatePodFilterFunc E "ctr-names" vals =
      .ok (fun p =>
        match p.allContainers with
        | none => false
        | some ctrs =>
          match ctrs with
          | [] => false
          | c :: _ => E.stringMatchRegexSlice c.name vals) := rfl

/-- Unfolding of the dispatch at the ctr-number branch. -/
lemma gen_ctr_number_eq (E : Env) (vals : List String) :
    generatePodFilterFunc E "ctr-number" vals =
      .ok (fun p =>
        match p.allContainersByID with
        | none => false
        | some ctrIds => ctrNumberLoop ctrIds.length vals) := rfl

/-- Unfolding of the dispatch at the ctr-status branch. -/
lemma gen_ctr_status_eq (E : Env) (vals : List String) :
    generatePodFilterFunc E "ctr-status" vals =
      (match findInvalid ctrStatusVocab vals with
       | some v => .error (.invalidStatus v)
       | none =>
         .ok (fun p =>
           match p.status with
           | none => false
           | some sts => ctrStatusLoop vals sts)) := rfl

/-- Unfolding of the dispatch at the id branch. -/
lemma gen_id_eq (E : Env) (vals : List String) :
    generatePodFilterFunc E "id" vals =
      .ok (fun p => vals.any (idValueMatch E p.id)) := rfl

/-- Unfolding of the dispatch at the name branch. -/
lemma gen_name_eq (E : Env) (vals : List String) :
    generatePodFilterFunc E "name" vals =
      .ok (fun p => E.stringMatchRegexSlice p.name vals) := rfl

/-- Unfolding of the dispatch at the pod-level status branch. -/
lemma gen_status_eq (E : Env) (vals : List String) :
    generatePodFilterFunc E "status" vals =
      (match findInvalid podStatusVocab vals with
       | some v => .error (.invalidPodStatus v)
       | none =>
         .ok (fun p =>
           match p.getPodStatus with
           | none => false
           | some st => vals.any (fun v => strToLower st == v))) := rfl

/-- Unfolding of the dispatch at the label branch. -/
lemma gen_label_eq (E : Env) (vals : List String) :
    generatePodFilterFunc E "label" vals =
      .ok (fun p => E.matchLabelFilters vals p.labels) := rfl

/-- Unfolding of the dispatch at the until branch. -/
lemma gen_until_eq (E : Env) (vals : List String) :
    generatePodFilterFunc E "until" vals =
      .ok (fun p =>
        match E.computeUntilTimestamp vals with
        | none => false
        | some u => decide (p.createdTime < u)) := rfl

/-- Unfolding of the dispatch at the network branch. -/
lemma gen_network_eq (E : Env) (vals : List String) :
    generatePodFilterFunc E "network" vals =
      (match resolveNetworks E vals with
       | .error e => .error e
       | .ok ns => .ok (fun p => networkPredEval ns p)) := rfl

/-- The eager validation scan finds no offender exactly when every value
belongs to the vocabulary. -/
lemma findInvalid_eq_none_iff (valid vals : List String) :
    findInvalid valid vals = none ↔ ∀ v ∈ vals, v ∈ valid := by
  induction vals with
  | nil => simp [findInvalid]
  | cons x xs ih =>
    by_cases hx : valid.contains x = true
    · simp [findInvalid, hx, ih, List.elem_iff.mp hx]
    · simp only [findInvalid, hx, Bool.false_eq_true, if_false]
      simp only [List.forall_mem_cons]
      constructor
      · intro h
        exact absurd h (by simp)
      · intro h
        exact absurd (List.elem_iff.mpr h.1) hx

/-- The offender returned by the validation scan is an out-of-vocabulary
value of the request. -/
lemma findInvalid_eq_some (valid vals : List String) (v : String)
    (h : findInvalid valid vals = some v) : v ∈ vals ∧ v ∉ valid := by
  induction vals with
  | nil => simp [findInvalid] at h
  | cons x xs ih =>
    by_cases hx : valid.contains x = true
    · simp only [findInvalid, hx, if_true] at h
      rcases ih h with ⟨h1, h2⟩
      exact ⟨List.mem_cons_of_mem x h1, h2⟩
    · simp only [findInvalid, hx, Bool.false_eq_true, if_false,
        Option.some.injEq] at h
      have hvx : v = x := h.symm
      subst hvx
      exact ⟨List.mem_cons_self v xs, fun hv => hx (List.elem_iff.mpr hv)⟩

/-- Network pre-resolution only fails with a registry error. -/
lemma resolveNetworks_error_shape (E : Env) (vals : List String)
    (e : CompileErr) (h : resolveNetworks E vals = .error e) :
    ∃ m, e = .networkErr m := by
  induction vals with
  | nil => simp [resolveNetworks] at h
  | cons x xs ih =>
    simp only [resolveNetworks] at h
    cases hx : E.networkInspect x with
    | error ne =>
      cases ne with
      | noSuchNetwork =>
        rw [hx] at h
        exact ih h
      | other m =>
        rw [hx] at h
        simp only [Except.error.injEq] at h
        exact ⟨m, h.symm⟩
    | ok net =>
      rw [hx] at h
      cases hr : resolveNetworks E xs with
      | error e2 =>
        rw [hr] at h
        replace h : (Except.error e2 : Except CompileErr (List String)) =
            Except.error e := h
        injection h with h2
        subst h2
        exact ih hr
      | ok ns =>
        rw [hr] at h
        replace h : (Except.ok (net.name :: ns) :
            Except CompileErr (List String)) = Except.error e := h
        exact Except.noConfusion h

/-- An empty captured canonical-name list rejects every Pod. -/
lemma networkPredEval_nil (p : Pod) : networkPredEval [] p = false := by
  rcases p with ⟨pid, pn, pct, plb, pa, pb, pst, pgs, pinf⟩
  cases pinf with
  | none => rfl
  | some c =>
    rcases c with ⟨cn, cnets⟩
    cases cnets with
    | none => rfl
    | some nets =>
      cases nets with
      | nil => rfl
      | cons n ns => simp [networkPredEval, List.contains]

/-- Concrete collaborator set used for witnesses: a literal-equality
stand-in regex engine for which only the pattern \x5b fails to compile,
a membership-based match-any helper, and a registry with no networks. -/
def baseEnv : Env :=
  { recompile := fun s => if s = "[" then none else some (fun t => s == t)
    stringMatchRegexSlice := fun s pats => pats.contains s
    matchLabelFilters := fun _ _ => false
    computeUntilTimestamp := fun _ => some 100
    networkInspect := fun _ => .error .noSuchNetwork }

/-- Collaborator set whose fallible helpers all fail. -/
def failEnv : Env :=
  { recompile := fun _ => none
    stringMatchRegexSlice := fun _ _ => false
    matchLabelFilters := fun _ _ => false
    computeUntilTimestamp := fun _ => none
    networkInspect := fun _ => .error .noSuchNetwork }

/-- Registry fixture: bridge resolves, boom fails hard, everything else
is missing. -/
def netEnv : Env :=
  { baseEnv with
    networkInspect := fun s =>
      if s = "bridge" then .ok { name := "bridge" }
      else if s = "boom" then .error (.other "boom failed")
      else .error .noSuchNetwork }

/-- Pod fixture whose every fallible accessor reports an error. -/
def failPod : Pod :=
  { id := "abcdef0123", name := "p0", createdTime := 0, labels := [],
    allContainersByID := none, allContainers := none, status := none,
    getPodStatus := none, infraContainer := none }

/-- Pod fixture with concrete children, states and an infra container. -/
def okPod : Pod :=
  { id := "abcdef0123", name := "p1", createdTime := 0, labels := [],
    allContainersByID := some ["abc123"],
    allContainers := some [{ name := "alpha", networks := none },
                           { name := "web", networks := none }],
    status := some [ContainerState.configured],
    getPodStatus := some "Exited",
    infraContainer := some { name := "infra", networks := some ["bridge"] } }

/-- Pod fixture whose infra container exists but cannot enumerate its
networks. -/
def infraFailPod : Pod :=
  { failPod with infraContainer := some { name := "infra", networks := none } }

/-- Pod fixture whose infra container is attached to bridge. -/
def netPod : Pod :=
  { failPod with
    infraContainer := some { name := "infra", networks := some ["bridge"] } }

/-- Pod fixture with a single child container id. -/
def ctrsPod : Pod := { failPod with allContainersByID := some ["aa"] }

/-- Pod fixture with exactly three child container ids. -/
def pod3 : Pod := { failPod with allContainersByID := some ["a1", "b2", "c3"] }

/-- Pod fixture with an empty child-container enumeration. -/
def emptyCtrsPod : Pod := { failPod with allContainers := some [] }

/-- Pod fixture with one child in raw state configured. -/
def cfgPod : Pod := { failPod with status := some [ContainerState.configured] }

/-- Pod fixture with one child in raw state stopped. -/
def stopPod : Pod := { failPod with status := some [ContainerState.stopped] }

/-- Pod fixture whose derived pod status is exited. -/
def exitedPod : Pod := { failPod with getPodStatus := some "exited" }

/-- Evaluation of a compiled ctr-ids predicate once child enumeration
has succeeded. -/
lemma runPred_ctr_ids (E : Env) (vals : List String) (p : Pod)
    (ids : List String) (h : p.allContainersByID = some ids) :
    runPred E "ctr-ids" vals p = some (ctrIdsLoop E ids vals) := by
  simp only [runPred, gen_ctr_ids_eq, h]

/-- Evaluation of a compiled ctr-names predicate on an empty child
enumeration. -/
lemma runPred_ctr_names_nil (E : Env) (vals : List String) (p : Pod)
    (h : p.allContainers = some []) :
    runPred E "ctr-names" vals p = some false := by
  simp only [runPred, gen_ctr_names_eq, h]

/-- Evaluation of a compiled ctr-names predicate on a non-empty child
enumeration: only the first child is consulted. -/
lemma runPred_ctr_names_cons (E : Env) (vals : List String) (p : Pod)
    (c : Ctr) (cs : List Ctr) (h : p.allContainers = some (c :: cs)) :
    runPred E "ctr-names" vals p =
      some (E.stringMatchRegexSlice c.name vals) := by
  simp only [runPred, gen_ctr_names_eq, h]

/-- Evaluation of a compiled ctr-number predicate once child enumeration
has succeeded. -/
lemma runPred_ctr_number (E : Env) (vals : List String) (p : Pod)
    (ids : List String) (h : p.allContainersByID = some ids) :
    runPred E "ctr-number" vals p = some (ctrNumberLoop ids.length vals) := by
  simp only [runPred, gen_ctr_number_eq, h]

/-- Evaluation of a compiled ctr-status predicate when every value is in
the vocabulary. -/
lemma runPred_ctr_status (E : Env) (vals : List String) (p : Pod)
    (hv : findInvalid ctrStatusVocab vals = none) :
    runPred E "ctr-status" vals p =
      some (match p.status with
            | none => false
            | some sts => ctrStatusLoop vals sts) := by
  simp only [runPred, gen_ctr_status_eq, hv]

/-- Evaluation of a compiled id predicate. -/
lemma runPred_id (E : Env) (vals : List String) (p : Pod) :
    runPred E "id" vals p = some (vals.any (idValueMatch E p.id)) := by
  simp only [runPred, gen_id_eq]

/-- Evaluation of a compiled pod-level status predicate when every value
is in the vocabulary and the status fetch succeeded. -/
lemma runPred_status (E : Env) (vals : List String) (p : Pod) (st : String)
    (hv : findInvalid podStatusVocab vals = none)
    (h : p.getPodStatus = some st) :
    runPred E "status" vals p =
      some (vals.any (fun v => strToLower st == v)) := by
  simp only [runPred, gen_status_eq, hv, h]

/-- Evaluation of a compiled network predicate once pre-resolution has
succeeded. -/
lemma runPred_network (E : Env) (vals : List String) (p : Pod)
    (ns : List String) (hr : resolveNetworks E vals = .ok ns) :
    runPred E "network" vals p = some (networkPredEval ns p) := by
  simp only [runPred, gen_network_eq, hr]

/-- The ctr-number loop stops with false at the first unparsable value,
whatever follows it, provided every earlier value parsed and missed. -/
lemma ctrNumberLoop_early (n : Nat) (v : String) (post : List String)
    (hv : atoi v = none) :
    ∀ pre : List String,
      (∀ w ∈ pre, ∃ k, atoi w = some k ∧ k ≠ (n : Int)) →
      ctrNumberLoop n (pre ++ v :: post) = false := by
  intro pre
  induction pre with
  | nil =>
    intro _
    simp [ctrNumberLoop, hv]
  | cons a as ih =>
    intro hpre
    rcases hpre a (by simp) with ⟨k, hk, hkn⟩
    simp only [List.cons_append, ctrNumberLoop, hk]
    rw [if_neg (fun hh => hkn hh.symm)]
    exact ih (fun w hw => hpre w (List.mem_cons_of_mem a hw))

/-- When every value parses, the ctr-number loop is an any-match on the
parsed integers against the child count. -/
lemma ctrNumberLoop_all_parse (n : Nat) :
    ∀ vals : List String, (∀ w ∈ vals, (atoi w).isSome = true) →
      ctrNumberLoop n vals = vals.any (fun w => atoi w == some (n : Int)) := by
  intro vals
  induction vals with
  | nil =>
    intro _
    rfl
  | cons a as ih =>
    intro h
    rcases Option.isSome_iff_exists.mp (h a (by simp)) with ⟨k, hk⟩
    by_cases hnk : (n : Int) = k
    · simp [ctrNumberLoop, hk, hnk, List.any_cons]
    · have hb : ((some k : Option Int) == some (n : Int)) = false := by
        simp only [beq_eq_false_iff_ne, ne_eq, Option.some.injEq]
        exact fun hh => hnk hh.symm
      simp only [ctrNumberLoop, hk, List.any_cons]
      rw [if_neg hnk, ih (fun w hw => h w (List.mem_cons_of_mem a hw)), hb]
      simp

/-- A value the classifier reads as hex whose lowercasing is empty
prefix-matches anything; concretely, the empty value makes the ctr-ids
loop accept as soon as one child id exists, provided every earlier value
that is classified as a regex compiles. -/
lemma ctrIdsLoop_empty_val (E : Env) (x : String) (xs : List String) :
    ∀ pre post : List String,
      (∀ w ∈ pre, notHexMatch w = true → (E.recompile w).isSome = true) →
      ctrIdsLoop E (x :: xs) (pre ++ "" :: post) = true := by
  intro pre
  induction pre with
  | nil =>
    intro post _
    have h0 : notHexMatch "" = false := by decide
    have hd : (strToLower "").data = [] := by decide
    have hs : ∀ cid, strStarts (strToLower "") cid = true := by
      intro cid
      simp [strStarts, hd, List.isPrefixOf]
    simp [ctrIdsLoop, h0, hs]
  | cons a as ih =>
    intro post h
    by_cases ha : notHexMatch a = true
    · rcases Option.isSome_iff_exists.mp (h a (by simp) ha) with ⟨re, hre⟩
      simp only [List.cons_append, ctrIdsLoop, ha, hre, if_true]
      by_cases hany : (x :: xs).any (fun cid => re cid) = true
      · simp [hany]
      · simp only [Bool.not_eq_true] at hany
        simp only [hany, Bool.false_eq_true, if_false]
        exact ih post (fun w hw hnw => h w (List.mem_cons_of_mem a hw) hnw)
    · simp only [Bool.not_eq_true] at ha
      simp only [List.cons_append, ctrIdsLoop, ha, Bool.false_eq_true, if_false]
      by_cases hany :
          (x :: xs).any (fun cid => strStarts (strToLower a) cid) = true
      · simp [hany]
      · simp only [Bool.not_eq_true] at hany
        simp only [hany, Bool.false_eq_true, if_false]
        exact ih post (fun w hw hnw => h w (List.mem_cons_of_mem a hw) hnw)

/-- C1: for every compiled predicate and every Pod, a failing
entity-model accessor used during evaluation (child enumeration for
ctr-ids, ctr-names and ctr-number, status fetch for ctr-status and
status, until-timestamp computation, infra-container lookup and network
enumeration) makes that predicate invocation return false for the Pod;
the predicate returns a plain boolean, so no error propagates. -/
theorem c1_fail_closed (E : Env) (vals : List String) (p : Pod) :
    (p.allContainersByID = none → runPred E "ctr-ids" vals p = some false)
    ∧ (p.allContainers = none → runPred E "ctr-names" vals p = some false)
    ∧ (p.allContainersByID = none → runPred E "ctr-number" vals p = some false)
    ∧ (findInvalid ctrStatusVocab vals = none → p.status = none →
        runPred E "ctr-status" vals p = some false)
    ∧ (findInvalid podStatusVocab vals = none → p.getPodStatus = none →
        runPred E "status" vals p = some false)
    ∧ (E.computeUntilTimestamp vals = none →
        runPred E "until" vals p = some false)
    ∧ (∀ ns, resolveNetworks E vals = .ok ns → p.infraContainer = none →
        runPred E "network" vals p = some false)
    ∧ (∀ ns c, resolveNetworks E vals = .ok ns → p.infraContainer = some c →
        c.networks = none → runPred E "network" vals p = some false) := by
  refine ⟨?_, ?_, ?_, ?_, ?_, ?_, ?_, ?_⟩
  · intro h
    simp only [runPred, gen_ctr_ids_eq, h]
  · intro h
    simp only [runPred, gen_ctr_names_eq, h]
  · intro h
    simp only [runPred, gen_ctr_number_eq, h]
  · intro hv h
    simp only [runPred, gen_ctr_status_eq, hv, h]
  · intro hv h
    simp only [runPred, gen_status_eq, hv, h]
  · intro h
    simp only [runPred, gen_until_eq, h]
  · intro ns hr h
    rw [runPred_network E vals p ns hr]
    simp only [networkPredEval, h]
  · intro ns c hr h1 h2
    rw [runPred_network E vals p ns hr]
    simp only [networkPredEval, h1, h2]

/-- C1 witness: concrete collaborators and a Pod whose accessors all
fail; each family's predicate evaluates to false. -/
theorem c1_fail_closed_witness :
    runPred failEnv "ctr-ids" ["running"] failPod = some false
    ∧ runPred failEnv "ctr-names" ["running"] failPod = some false
    ∧ runPred failEnv "ctr-number" ["running"] failPod = some false
    ∧ runPred failEnv "ctr-status" ["running"] failPod = some false
    ∧ runPred failEnv "status" ["running"] failPod = some false
    ∧ runPred failEnv "until" ["running"] failPod = some false
    ∧ runPred failEnv "network" ["running"] failPod = some false
    ∧ runPred failEnv "network" ["running"] infraFailPod = some false :=
  ⟨(c1_fail_closed failEnv ["running"] failPod).1 rfl,
   (c1_fail_closed failEnv ["running"] failPod).2.1 rfl,
   (c1_fail_closed failEnv ["running"] failPod).2.2.1 rfl,
   (c1_fail_closed failEnv ["running"] failPod).2.2.2.1 rfl rfl,
   (c1_fail_closed failEnv ["running"] failPod).2.2.2.2.1 rfl rfl,
   (c1_fail_closed failEnv ["running"] failPod).2.2.2.2.2.1 rfl,
   (c1_fail_closed failEnv ["running"] failPod).2.2.2.2.2.2.1 [] rfl rfl,
   (c1_fail_closed failEnv ["running"] infraFailPod).2.2.2.2.2.2.2 []
     { name := "infra", networks := none } rfl rfl rfl⟩

/-- C4: on a Pod whose child enumeration succeeds and is non-empty, the
ctr-names predicate is decided by matching the values against the first
enumerated child's name only; with zero children it is false. -/
theorem c4_first_child_only (E : Env) (vals : List String) (p : Pod)
    (c : Ctr) (cs : List Ctr) :
    (p.allContainers = some (c :: cs) →
      runPred E "ctr-names" vals p =
        some (E.stringMatchRegexSlice c.name vals))
    ∧ (p.allContainers = some [] →
      runPred E "ctr-names" vals p = some false) := by
  constructor
  · intro h
    exact runPred_ctr_names_cons E vals p c cs h
  · intro h
    exact runPred_ctr_names_nil E vals p h

/-- C4 witness: a Pod whose second child would match but whose first
does not evaluates to false, and a Pod with zero children evaluates to
false. -/
theorem c4_first_child_only_witness :
    runPred baseEnv "ctr-names" ["web"] okPod = some false
    ∧ runPred baseEnv "ctr-names" ["web"] emptyCtrsPod = some false := by
  constructor
  · have h := (c4_first_child_only baseEnv ["web"] okPod
      { name := "alpha", networks := none }
      [{ name := "web", networks := none }]).1 rfl
    rw [h]
    rfl
  · exact (c4_first_child_only baseEnv ["web"] emptyCtrsPod
      { name := "x", networks := none } []).2 rfl

/-- C7: normalization is asymmetric between the two status families.
Under ctr-status, raw configured matches query created and raw stopped
matches query stopped (via the stopped-to-exited aliasing on both
sides); the predicate under query stopped tests normalized child states
against exited. Under the pod-level status family the derived status is
lowercased and compared directly, so a derived status exited does not
match query stopped. -/
theorem c7_status_asymmetry (E : Env) (p : Pod) :
    (p.status = some [ContainerState.configured] →
      runPred E "ctr-status" ["created"] p = some true)
    ∧ (p.status = some [ContainerState.stopped] →
      runPred E "ctr-status" ["stopped"] p = some true)
    ∧ (∀ sts, p.status = some sts →
      runPred E "ctr-status" ["stopped"] p =
        some (sts.any (fun st => normState st == "exited")))
    ∧ (∀ st, p.getPodStatus = some st →
      runPred E "status" ["stopped"] p = some (strToLower st == "stopped"))
    ∧ (p.getPodStatus = some "exited" →
      runPred E "status" ["stopped"] p = some false) := by
  refine ⟨?_, ?_, ?_, ?_, ?_⟩
  · intro h
    rw [runPred_ctr_status E ["created"] p rfl, h]
    decide
  · intro h
    rw [runPred_ctr_status E ["stopped"] p rfl, h]
    decide
  · intro sts h
    rw [runPred_ctr_status E ["stopped"] p rfl, h]
    simp [ctrStatusLoop]
  · intro st h
    rw [runPred_status E ["stopped"] p st rfl h]
    simp [List.any_cons]
  · intro h
    rw [runPred_status E ["stopped"] p "exited" rfl h]
    rfl

/-- C7 witness: the three concrete matches of the claim on fixture
Pods. -/
theorem c7_status_asymmetry_witness :
    runPred baseEnv "ctr-status" ["created"] cfgPod = some true
    ∧ runPred baseEnv "ctr-status" ["stopped"] stopPod = some true
    ∧ runPred baseEnv "status" ["stopped"] exitedPod = some false :=
  ⟨(c7_status_asymmetry baseEnv cfgPod).1 rfl,
   (c7_status_asymmetry baseEnv stopPod).2.1 rfl,
   (c7_status_asymmetry baseEnv exitedPod).2.2.2.2 rfl⟩

/-- C5 counterexample: the unknown-family error message is the family
name followed by " is an invalid filter", not "invalid filter: " followed
by the family name as the claim states. -/
theorem c5_counterexample :
    generatePodFilterFunc baseEnv "bogus" [] =
      .error (.invalidFilter "bogus")
    ∧ (CompileErr.invalidFilter "bogus").msg = "bogus is an invalid filter"
    ∧ (CompileErr.invalidFilter "bogus").msg ≠ "invalid filter: bogus" := by
  refine ⟨rfl, rfl, ?_⟩
  decide

/-- C5 amended: for every family name outside the ten recognized
families, compile returns the invalid-filter error whose message is
"<family> is an invalid filter" and no predicate; a recognized family
never produces an invalid-filter error. -/
theorem c5_amended (E : Env) (f : String) (vals : List String) :
    (f ∉ recognizedFamilies →
      generatePodFilterFunc E f vals = .error (.invalidFilter f)
      ∧ (CompileErr.invalidFilter f).msg = f ++ " is an invalid filter")
    ∧ (f ∈ recognizedFamilies → ∀ e,
      generatePodFilterFunc E f vals = .error e →
      ∀ g, e ≠ CompileErr.invalidFilter g)
    ∧ recognizedFamilies.length = 10 := by
  refine ⟨?_, ?_, rfl⟩
  · intro h
    simp only [recognizedFamilies, List.mem_cons, List.not_mem_nil,
      or_false, not_or] at h
    obtain ⟨h1, h2, h3, h4, h5, h6, h7, h8, h9, h10⟩ := h
    refine ⟨?_, rfl⟩
    simp only [generatePodFilterFunc, if_neg h1, if_neg h2, if_neg h3,
      if_neg h4, if_neg h5, if_neg h6, if_neg h7, if_neg h8, if_neg h9,
      if_neg h10]
  · intro hf e he g
    simp only [recognizedFamilies, List.mem_cons, List.not_mem_nil,
      or_false] at hf
    rcases hf with rfl | rfl | rfl | rfl | rfl | rfl | rfl | rfl | rfl | rfl
    · rw [gen_ctr_ids_eq] at he
      exact Except.noConfusion he
    · rw [gen_ctr_names_eq] at he
      exact Except.noConfusion he
    · rw [gen_ctr_number_eq] at he
      exact Except.noConfusion he
    · rw [gen_ctr_status_eq] at he
      cases hfi : findInvalid ctrStatusVocab vals with
      | none =>
        simp only [hfi] at he
        exact Except.noConfusion he
      | some v =>
        simp only [hfi, Except.error.injEq] at he
        subst he
        simp
    · rw [gen_id_eq] at he
      exact Except.noConfusion he
    · rw [gen_name_eq] at he
      exact Except.noConfusion he
    · rw [gen_status_eq] at he
      cases hfi : findInvalid podStatusVocab vals with
      | none =>
        simp only [hfi] at he
        exact Except.noConfusion he
      | some v =>
        simp only [hfi, Except.error.injEq] at he
        subst he
        simp
    · rw [gen_label_eq] at he
      exact Except.noConfusion he
    · rw [gen_until_eq] at he
      exact Except.noConfusion he
    · rw [gen_network_eq] at he
      cases hr : resolveNetworks E vals with
      | error e2 =>
        simp only [hr, Except.error.injEq] at he
        subst he
        rcases resolveNetworks_error_shape E vals e2 hr with ⟨m, rfl⟩
        simp
      | ok ns =>
        simp only [hr] at he
        exact Except.noConfusion he

/-- C5 amended witness: a concrete unknown family takes the
invalid-filter branch, and a concrete recognized-family error is not an
invalid-filter error. -/
theorem c5_amended_witness :
    generatePodFilterFunc baseEnv "host" [] = .error (.invalidFilter "host")
    ∧ CompileErr.invalidStatus "zzz" ≠ CompileErr.invalidFilter "ctr-status" := by
  constructor
  · exact ((c5_amended baseEnv "host" []).1 (by decide)).1
  · exact (c5_amended baseEnv "ctr-status" ["zzz"]).2.1 (by decide)
      (CompileErr.invalidStatus "zzz") rfl "ctr-status"

/-- C6: ctr-status compilation fails exactly when some value is outside
its six-word vocabulary and then carries the message
"<value> is not a valid status"; the status family likewise with its
seven-word vocabulary and "<value> is not a valid pod status"; with only
valid values both families compile. -/
theorem c6_vocab_validation (E : Env) (vals : List String) :
    ((∀ v ∈ vals, v ∈ ctrStatusVocab) ↔
      ∃ pr, generatePodFilterFunc E "ctr-status" vals = .ok pr)
    ∧ (∀ e, generatePodFilterFunc E "ctr-status" vals = .error e →
        ∃ v, v ∈ vals ∧ v ∉ ctrStatusVocab ∧ e = .invalidStatus v
          ∧ e.msg = v ++ " is not a valid status")
    ∧ ((∀ v ∈ vals, v ∈ podStatusVocab) ↔
      ∃ pr, generatePodFilterFunc E "status" vals = .ok pr)
    ∧ (∀ e, generatePodFilterFunc E "status" vals = .error e →
        ∃ v, v ∈ vals ∧ v ∉ podStatusVocab ∧ e = .invalidPodStatus v
          ∧ e.msg = v ++ " is not a valid pod status") := by
  refine ⟨?_, ?_, ?_, ?_⟩
  · rw [gen_ctr_status_eq]
    constructor
    · intro h
      rw [(findInvalid_eq_none_iff ctrStatusVocab vals).mpr h]
      exact ⟨_, rfl⟩
    · rintro ⟨pr, hpr⟩
      cases hfi : findInvalid ctrStatusVocab vals with
      | none => exact (findInvalid_eq_none_iff ctrStatusVocab vals).mp hfi
      | some v =>
        rw [hfi] at hpr
        exact Except.noConfusion hpr
  · intro e he
    rw [gen_ctr_status_eq] at he
    cases hfi : findInvalid ctrStatusVocab vals with
    | none =>
      simp only [hfi] at he
      exact Except.noConfusion he
    | some v =>
      simp only [hfi, Except.error.injEq] at he
      subst he
      rcases findInvalid_eq_some ctrStatusVocab vals v hfi with ⟨h1, h2⟩
      exact ⟨v, h1, h2, rfl, rfl⟩
  · rw [gen_status_eq]
    constructor
    · intro h
      rw [(findInvalid_eq_none_iff podStatusVocab vals).mpr h]
      exact ⟨_, rfl⟩
    · rintro ⟨pr, hpr⟩
      cases hfi : findInvalid podStatusVocab vals with
      | none => exact (findInvalid_eq_none_iff podStatusVocab vals).mp hfi
      | some v =>
        rw [hfi] at hpr
        exact Except.noConfusion hpr
  · intro e he
    rw [gen_status_eq] at he
    cases hfi : findInvalid podStatusVocab vals with
    | none =>
      simp only [hfi] at he
      exact Except.noConfusion he
    | some v =>
      simp only [hfi, Except.error.injEq] at he
      subst he
      rcases findInvalid_eq_some podStatusVocab vals v hfi with ⟨h1, h2⟩
      exact ⟨v, h1, h2, rfl, rfl⟩

/-- C6 witness: valid values compile for both families, and a concrete
invalid value yields the exact error of each family. -/
theorem c6_vocab_validation_witness :
    (∃ pr, generatePodFilterFunc baseEnv "ctr-status"
      ["created", "stopped"] = .ok pr)
    ∧ (∃ pr, generatePodFilterFunc baseEnv "status"
      ["degraded", "dead"] = .ok pr)
    ∧ (∃ v, v ∈ ["zzz"] ∧ v ∉ ctrStatusVocab
        ∧ CompileErr.invalidStatus "zzz" = .invalidStatus v
        ∧ (CompileErr.invalidStatus "zzz").msg = v ++ " is not a valid status")
    ∧ (∃ v, v ∈ ["yyy"] ∧ v ∉ podStatusVocab
        ∧ CompileErr.invalidPodStatus "yyy" = .invalidPodStatus v
        ∧ (CompileErr.invalidPodStatus "yyy").msg =
            v ++ " is not a valid pod status") :=
  ⟨(c6_vocab_validation baseEnv ["created", "stopped"]).1.mp (by decide),
   (c6_vocab_validation baseEnv ["degraded", "dead"]).2.2.1.mp (by decide),
   (c6_vocab_validation baseEnv ["zzz"]).2.1
     (CompileErr.invalidStatus "zzz") rfl,
   (c6_vocab_validation baseEnv ["yyy"]).2.2.2
     (CompileErr.invalidPodStatus "yyy") rfl⟩

/-- C8: an id-family value containing only hex digits (any length,
empty included) is matched as a prefix of the unchanged identifier
after lowercasing the value; a value with any non-hex character never
takes the prefix branch and is handed to the regex engine instead. The
value "abc" is classified hex and "abc.*" is classified non-hex. -/
theorem c8_id_hex_vs_regex (E : Env) (want : String) (p : Pod) :
    (notHexMatch want = false →
      runPred E "id" [want] p = some (strStarts (strToLower want) p.id))
    ∧ (notHexMatch want = true →
      runPred E "id" [want] p =
        some (match E.recompile want with
              | none => false
              | some re => re p.id))
    ∧ notHexMatch "abc" = false ∧ notHexMatch "abc.*" = true := by
  refine ⟨?_, ?_, by decide, by decide⟩
  · intro h
    rw [runPred_id]
    simp [idValueMatch, h]
  · intro h
    rw [runPred_id]
    simp only [List.any_cons, List.any_nil, Bool.or_false, idValueMatch, h,
      if_true]

/-- C8 witness: on identifier "abcdef0123" the hex value "abc" matches
via prefix and the non-hex value "abc.*" goes to the regex engine (a
literal-equality stand-in here, hence no match). -/
theorem c8_id_hex_vs_regex_witness :
    runPred baseEnv "id" ["abc"] failPod = some true
    ∧ runPred baseEnv "id" ["abc.*"] failPod = some false := by
  constructor
  · have h := (c8_id_hex_vs_regex baseEnv "abc" failPod).1 (by decide)
    rw [h]
    decide
  · have h := (c8_id_hex_vs_regex baseEnv "abc.*" failPod).2.1 (by decide)
    rw [h]
    decide

/-- C9: network pre-resolution happens at compile time: a value whose
lookup reports no-such-network is skipped silently, any other lookup
error aborts compilation with that error, a resolved value contributes
its canonical name, the compiled predicate evaluates exactly the
captured canonical-name list, and an empty captured list rejects every
Pod. -/
theorem c9_network_resolution (E : Env) (v : String)
    (rest vals : List String) (p : Pod) :
    (E.networkInspect v = .error .noSuchNetwork →
      resolveNetworks E (v :: rest) = resolveNetworks E rest)
    ∧ (∀ m, E.networkInspect v = .error (.other m) →
      generatePodFilterFunc E "network" (v :: rest) =
        .error (.networkErr m)
      ∧ (CompileErr.networkErr m).msg = m)
    ∧ (∀ net, E.networkInspect v = .ok net →
      resolveNetworks E (v :: rest) =
        (resolveNetworks E rest).map (fun ns => net.name :: ns))
    ∧ (∀ ns, resolveNetworks E vals = .ok ns →
      runPred E "network" vals p = some (networkPredEval ns p))
    ∧ (resolveNetworks E vals = .ok [] →
      runPred E "network" vals p = some false) := by
  refine ⟨?_, ?_, ?_, ?_, ?_⟩
  · intro h
    simp only [resolveNetworks, h]
  · intro m h
    refine ⟨?_, rfl⟩
    rw [gen_network_eq]
    simp only [resolveNetworks, h]
  · intro net h
    simp only [resolveNetworks, h]
  · intro ns hr
    exact runPred_network E vals p ns hr
  · intro hr
    rw [runPred_network E vals p [] hr, networkPredEval_nil]

/-- C9 witness: with the registry fixture, a missing network is skipped,
a hard registry failure aborts compilation with its message, a resolved
bridge network is captured and matched by the infra container's
networks, and an all-missing request compiles to the always-false
predicate. -/
theorem c9_network_resolution_witness :
    resolveNetworks netEnv ["ghost", "bridge"] =
      resolveNetworks netEnv ["bridge"]
    ∧ generatePodFilterFunc netEnv "network" ["boom"] =
        .error (.networkErr "boom failed")
    ∧ runPred netEnv "network" ["bridge"] netPod = some true
    ∧ runPred netEnv "network" ["ghost"] netPod = some false := by
  refine ⟨?_, ?_, ?_, ?_⟩
  · exact (c9_network_resolution netEnv "ghost" ["bridge"] [] netPod).1 rfl
  · exact ((c9_network_resolution netEnv "boom" [] [] netPod).2.1
      "boom failed" rfl).1
  · have h := (c9_network_resolution netEnv "x" [] ["bridge"]
      netPod).2.2.2.1 ["bridge"] rfl
    rw [h]
    decide
  · exact (c9_network_resolution netEnv "x" [] ["ghost"] netPod).2.2.2.2 rfl

/-- C2 counterexample: in the ctr-ids family a regex value whose
compilation fails ends the predicate with false at once, so a later
value that does match is never considered: with values ["[", "aa"] and
a child id "aa" that the second value prefix-matches, the predicate is
false, where the claim predicts true. -/
theorem c2_counterexample :
    notHexMatch "[" = true
    ∧ baseEnv.recompile "[" = none
    ∧ notHexMatch "aa" = false
    ∧ strStarts (strToLower "aa") "aa" = true
    ∧ ctrsPod.allContainersByID = some ["aa"]
    ∧ runPred baseEnv "ctr-ids" ["[", "aa"] ctrsPod = some false := by
  refine ⟨by decide, rfl, by decide, by decide, rfl, by decide⟩

/-- C2 amended: in the id family a regex value whose compilation fails
contributes no match and the remaining values are still considered; in
the ctr-ids family a regex value whose compilation fails makes the
predicate return false for that Pod immediately, without considering the
remaining values. -/
theorem c2_amended (E : Env) (w : String) (rest : List String) (p : Pod)
    (ids : List String) :
    (notHexMatch w = true → E.recompile w = none →
      runPred E "id" (w :: rest) p = runPred E "id" rest p)
    ∧ (notHexMatch w = true → E.recompile w = none →
      p.allContainersByID = some ids →
      runPred E "ctr-ids" (w :: rest) p = some false) := by
  constructor
  · intro h1 h2
    rw [runPred_id, runPred_id]
    simp [List.any_cons, idValueMatch, h1, h2]
  · intro h1 h2 h3
    rw [runPred_ctr_ids E (w :: rest) p ids h3]
    simp [ctrIdsLoop, h1, h2]

/-- C2 amended witness: a failing regex value followed by a matching
value: the id predicate falls through to the next value, the ctr-ids
predicate is immediately false. -/
theorem c2_amended_witness :
    runPred failEnv "id" ["z*", "abc"] failPod =
      runPred failEnv "id" ["abc"] failPod
    ∧ runPred failEnv "ctr-ids" ["z*", "aa"] ctrsPod = some false :=
  ⟨(c2_amended failEnv "z*" ["abc"] failPod []).1 (by decide) rfl,
   (c2_amended failEnv "z*" ["aa"] ctrsPod ["aa"]).2 (by decide) rfl rfl⟩

/-- C3 counterexample: a ctr-number value that fails to parse returns
false for the whole predicate at once, so with values ["abc", "3"] on a
Pod with three children the predicate is false, where the claim
predicts true. -/
theorem c3_counterexample :
    atoi "abc" = none
    ∧ atoi "3" = some 3
    ∧ pod3.allContainersByID = some ["a1", "b2", "c3"]
    ∧ runPred baseEnv "ctr-number" ["abc", "3"] pod3 = some false := by
  refine ⟨by decide, by decide, rfl, by decide⟩

/-- C3 amended: a ctr-number value that fails to parse makes the
predicate return false for that Pod immediately (later values are not
considered), so the predicate scans values in order; when every value
parses, it returns true exactly when some value's parsed integer equals
the child count. -/
theorem c3_amended (E : Env) (p : Pod) (ids : List String)
    (pre post vals : List String) (v : String) :
    (p.allContainersByID = some ids →
      (∀ w ∈ pre, ∃ k, atoi w = some k ∧ k ≠ (ids.length : Int)) →
      atoi v = none →
      runPred E "ctr-number" (pre ++ v :: post) p = some false)
    ∧ (p.allContainersByID = some ids →
      (∀ w ∈ vals, (atoi w).isSome = true) →
      runPred E "ctr-number" vals p =
        some (vals.any (fun w => atoi w == some (ids.length : Int)))) := by
  constructor
  · intro h hpre hv
    rw [runPred_ctr_number E (pre ++ v :: post) p ids h,
      ctrNumberLoop_early ids.length v post hv pre hpre]
  · intro h hall
    rw [runPred_ctr_number E vals p ids h,
      ctrNumberLoop_all_parse ids.length vals hall]

/-- C3 amended witness: ["2", "x", "3"] on a three-child Pod is false
(the unparsable "x" cuts the scan before "3"), an out-of-int64-range
numeral fails to parse and likewise cuts the scan before "3", while the
all-parsing ["4", "3"] is true. -/
theorem c3_amended_witness :
    runPred baseEnv "ctr-number" ["2", "x", "3"] pod3 = some false
    ∧ atoi "9999999999999999999999999" = none
    ∧ runPred baseEnv "ctr-number"
        ["9999999999999999999999999", "3"] pod3 = some false
    ∧ runPred baseEnv "ctr-number" ["4", "3"] pod3 = some true := by
  refine ⟨?_, by decide, ?_, ?_⟩
  · refine (c3_amended baseEnv pod3 ["a1", "b2", "c3"] ["2"] ["3"] []
      "x").1 rfl ?_ (by decide)
    intro w hw
    simp only [List.mem_singleton] at hw
    subst hw
    exact ⟨2, by decide, by decide⟩
  · exact (c3_amended baseEnv pod3 ["a1", "b2", "c3"] [] ["3"] []
      "9999999999999999999999999").1 rfl
      (fun w hw => absurd hw (List.not_mem_nil w)) (by decide)
  · have h := (c3_amended baseEnv pod3 ["a1", "b2", "c3"] [] []
      ["4", "3"] "x").2 rfl (by decide)
    rw [h]
    decide

/-- C10 counterexample: the ctr-ids half of the claim fails when a value
preceding "" is a regex that does not compile: with values ["[", ""] on
a Pod with one child the predicate is false, where the claim predicts
true because "" is among the values and a child exists. -/
theorem c10_counterexample :
    notHexMatch "" = false
    ∧ baseEnv.recompile "[" = none
    ∧ ctrsPod.allContainersByID = some ["aa"]
    ∧ runPred baseEnv "ctr-ids" ["[", ""] ctrsPod = some false := by
  refine ⟨by decide, rfl, rfl, by decide⟩

/-- C10 amended: the empty value is classified hex and prefix-matches
every identifier, so an id predicate whose values contain "" is true for
every Pod; a ctr-ids predicate whose values contain "" is true for every
Pod with a successful non-empty child enumeration provided every value
preceding "" that is classified as a regex compiles. -/
theorem c10_amended (E : Env) (vals : List String) (p : Pod)
    (ids : List String) (pre post : List String) :
    ("" ∈ vals → runPred E "id" vals p = some true)
    ∧ (vals = pre ++ "" :: post → p.allContainersByID = some ids →
      ids ≠ [] →
      (∀ w ∈ pre, notHexMatch w = true → (E.recompile w).isSome = true) →
      runPred E "ctr-ids" vals p = some true) := by
  constructor
  · intro h
    rw [runPred_id]
    have hm : idValueMatch E p.id "" = true := by
      have h0 : notHexMatch "" = false := by decide
      have hd : (strToLower "").data = [] := by decide
      simp [idValueMatch, h0, strStarts, hd, List.isPrefixOf]
    refine congrArg some ?_
    exact List.any_eq_true.mpr ⟨"", h, hm⟩
  · intro hv h hne hpre
    subst hv
    rw [runPred_ctr_ids E (pre ++ "" :: post) p ids h]
    cases ids with
    | nil => exact absurd rfl hne
    | cons x xs =>
      rw [ctrIdsLoop_empty_val E x xs pre post hpre]

/-- C10 amended witness: values containing "" make the id predicate true
on a fixture Pod, and make the ctr-ids predicate true on a Pod with one
child when the preceding value is hex-classified. -/
theorem c10_amended_witness :
    runPred baseEnv "id" ["zz", ""] failPod = some true
    ∧ runPred baseEnv "ctr-ids" ["aa", ""] ctrsPod = some true :=
  ⟨(c10_amended baseEnv ["zz", ""] failPod [] [] []).1 (by decide),
   (c10_amended baseEnv ["aa", ""] ctrsPod ["aa"] ["aa"] []).2 rfl rfl
     (by decide) (by decide)⟩

end PodFilters
